import Mathlib

/-!
Verification of the DataHub backend's authentication and token-lifecycle
subsystem, shallowly embedded from the Go sources.

Embedding conventions:
* `time.Time` values are Unix seconds (`Int`); a nil `*time.Time` (or Go's
  zero time, where the source tests `IsZero`) is `Option Int` with `none`.
* Pointer arguments (`*string`, `*time.Time`) become `Option _`.
* The gorm database is a `List` of rows; `First(... Where ...)` is
  `List.find?`, `Create` appends, `Save` replaces the row with the same
  primary key.
* Fallible datastore lookups are factored through a `FirstResult` so that
  a non-`ErrRecordNotFound` datastore error can be injected exactly where
  the Go code branches on `result.Error`.
* The HMAC signature is modelled as a perfect MAC: the signature value is
  the triple of algorithm, key and signed payload, and verification
  compares recomputed and attached signatures.
-/

/-! ## State registry (`backend/auth/authState.go`, duplicated in
`backend/services/auth/auth_service.go`)

The Go store is a `map[string]struct{}`; a `Finset String` has exactly the
same add/delete/membership behaviour. -/

/-- `AddState` stores a new OAuth2 state token (`stateRepo.tokens[state] = struct{}{}`). -/
def AddState (state : String) (r : Finset String) : Finset String :=
  insert state r

/-- `VerifyAndConsumeState` checks presence, deletes the token when present,
and returns whether it was present, together with the updated store. -/
def VerifyAndConsumeState (state : String) (r : Finset String) :
    Bool × Finset String :=
  if state ∈ r then (true, r.erase state) else (false, r)

/-- `RemoveState` deletes a state token unconditionally. -/
def RemoveState (state : String) (r : Finset String) : Finset String :=
  r.erase state

/-- `IsValidState` checks presence without consuming. -/
def IsValidState (state : String) (r : Finset String) : Bool :=
  decide (state ∈ r)

/-- `GenerateAndAddState` generates a fresh random token and stores it; the
random token is a parameter of the embedding. It returns the token. -/
def GenerateAndAddState (fresh : String) (r : Finset String) :
    String × Finset String :=
  (fresh, AddState fresh r)

/-- A registry operation, as invoked by later requests. -/
inductive RegOp where
  | add (s : String)
  | consume (s : String)
  | discard (s : String)
deriving DecidableEq, Repr

/-- Run one registry operation against the store. -/
def applyRegOp (op : RegOp) (r : Finset String) : Finset String :=
  match op with
  | .add s => AddState s r
  | .consume s => (VerifyAndConsumeState s r).2
  | .discard s => RemoveState s r

/-- Run a sequence of registry operations, oldest first. -/
def applyRegOps (ops : List RegOp) (r : Finset String) : Finset String :=
  ops.foldl (fun acc op => applyRegOp op acc) r

/-! ## Credential records (`backend/models/token.go`,
`backend/repositories/token_repository.go`) -/

/-- The `models.Token` row. Times are Unix seconds; nil pointers are `none`. -/
structure Token where
  id : String
  userID : String
  platform : String
  accountIdentifier : Option String
  accessToken : String
  accessTokenExpiry : Option Int
  refreshToken : Option String
  refreshTokenExpiry : Option Int
  accessTokenIssuedAt : Int
  refreshTokenIssuedAt : Option Int
  createdAt : Int
  updatedAt : Int
deriving DecidableEq, Repr

/-- Outcome of a gorm `First(...)`: a row, `gorm.ErrRecordNotFound`, or any
other datastore error. -/
inductive FirstResult where
  | found (t : Token)
  | errRecordNotFound
  | errOther (e : String)
deriving DecidableEq, Repr

/-- The `WHERE user_id = ? AND platform = ? AND account_identifier = ?`
predicate used by the token queries. -/
def matchesTriple (userID platform : String) (acct : Option String)
    (t : Token) : Bool :=
  t.userID = userID && t.platform = platform && t.accountIdentifier = acct

/-- `db.DB.Where("user_id = ? AND platform = ?").First(&existingToken)`. -/
def firstTokenByUserPlatform (userID platform : String) (db : List Token) :
    FirstResult :=
  match db.find? (fun t => t.userID = userID && t.platform = platform) with
  | some t => .found t
  | none => .errRecordNotFound

/-- `db.DB.Where("user_id = ? AND platform = ? AND account_identifier = ?")
.First(&existingToken)` with platform fixed to "GITHUB". -/
def firstGitHubToken (userID githubUsername : String) (db : List Token) :
    FirstResult :=
  match db.find? (matchesTriple userID "GITHUB" (some githubUsername)) with
  | some t => .found t
  | none => .errRecordNotFound

/-- `CreateTokenWithAccountIdentifier`: builds the row (setting
`RefreshTokenIssuedAt` only when a refresh token pointer is present) and
appends it. `now` is `time.Now()`, `newID` is `uuid.New().String()`. -/
def CreateTokenWithAccountIdentifier (now : Int) (newID : String)
    (userID platform : String) (accountIdentifier : Option String)
    (accessToken : String) (accessTokenExpiry : Option Int)
    (refreshToken : Option String) (refreshTokenExpiry : Option Int)
    (db : List Token) : List Token × Token :=
  let refreshIssuedAt : Option Int :=
    if refreshToken.isSome then some now else none
  let t : Token :=
    { id := newID, userID := userID, platform := platform,
      accountIdentifier := accountIdentifier, accessToken := accessToken,
      accessTokenExpiry := accessTokenExpiry, refreshToken := refreshToken,
      refreshTokenExpiry := refreshTokenExpiry, accessTokenIssuedAt := now,
      refreshTokenIssuedAt := refreshIssuedAt, createdAt := now,
      updatedAt := now }
  (db ++ [t], t)

/-- `CreateToken` delegates with a nil account identifier. -/
def CreateToken (now : Int) (newID : String) (userID platform : String)
    (accessToken : String) (accessTokenExpiry : Option Int)
    (refreshToken : Option String) (refreshTokenExpiry : Option Int)
    (db : List Token) : List Token × Token :=
  CreateTokenWithAccountIdentifier now newID userID platform none
    accessToken accessTokenExpiry refreshToken refreshTokenExpiry db

/-- `UpdateToken`: overwrites the material of `existingToken` (again setting
`RefreshTokenIssuedAt` only when a refresh token is present) and saves it;
gorm `Save` replaces the row with the same primary key. -/
def UpdateToken (now : Int) (existingToken : Token) (accessToken : String)
    (accessTokenExpiry : Option Int) (refreshToken : Option String)
    (refreshTokenExpiry : Option Int) (db : List Token) :
    List Token × Token :=
  let refreshIssuedAt : Option Int :=
    if refreshToken.isSome then some now else none
  let t : Token :=
    { existingToken with
      accessToken := accessToken,
      accessTokenExpiry := accessTokenExpiry, accessTokenIssuedAt := now,
      refreshToken := refreshToken, refreshTokenExpiry := refreshTokenExpiry,
      refreshTokenIssuedAt := refreshIssuedAt, updatedAt := now }
  (db.map (fun x => if x.id = existingToken.id then t else x), t)

/-- The branch structure of `UpsertToken`, parameterized over the lookup
outcome exactly as the Go code branches on `result.Error`. -/
def UpsertTokenCore (res : FirstResult) (now : Int) (newID : String)
    (userID platform : String) (accessToken : String)
    (accessTokenExpiry : Option Int) (refreshToken : Option String)
    (refreshTokenExpiry : Option Int) (db : List Token) :
    List Token × Except String Token :=
  match res with
  | .found existingToken =>
      let r := UpdateToken now existingToken accessToken accessTokenExpiry
        refreshToken refreshTokenExpiry db
      (r.1, .ok r.2)
  | .errRecordNotFound =>
      let r := CreateToken now newID userID platform accessToken
        accessTokenExpiry refreshToken refreshTokenExpiry db
      (r.1, .ok r.2)
  | .errOther e => (db, .error e)

/-- `UpsertToken`: looks up by (user, platform), then branches. -/
def UpsertToken (now : Int) (newID : String) (userID platform : String)
    (accessToken : String) (accessTokenExpiry : Option Int)
    (refreshToken : Option String) (refreshTokenExpiry : Option Int)
    (db : List Token) : List Token × Except String Token :=
  UpsertTokenCore (firstTokenByUserPlatform userID platform db) now newID
    userID platform accessToken accessTokenExpiry refreshToken
    refreshTokenExpiry db

/-- The branch structure of `CreateOrUpdateGitHubToken`, parameterized over
the lookup outcome. The create branch passes platform "GITHUB" and the
GitHub username as account identifier. -/
def CreateOrUpdateGitHubTokenCore (res : FirstResult) (now : Int)
    (newID : String) (userID githubUsername : String) (accessToken : String)
    (accessTokenExpiry : Option Int) (refreshToken : Option String)
    (refreshTokenExpiry : Option Int) (db : List Token) :
    List Token × Except String Token :=
  match res with
  | .found existingToken =>
      let r := UpdateToken now existingToken accessToken accessTokenExpiry
        refreshToken refreshTokenExpiry db
      (r.1, .ok r.2)
  | .errRecordNotFound =>
      let r := CreateTokenWithAccountIdentifier now newID userID "GITHUB"
        (some githubUsername) accessToken accessTokenExpiry refreshToken
        refreshTokenExpiry db
      (r.1, .ok r.2)
  | .errOther e => (db, .error e)

/-- `CreateOrUpdateGitHubToken`: looks up by (user, "GITHUB", username),
then branches. -/
def CreateOrUpdateGitHubToken (now : Int) (newID : String)
    (userID githubUsername : String) (accessToken : String)
    (accessTokenExpiry : Option Int) (refreshToken : Option String)
    (refreshTokenExpiry : Option Int) (db : List Token) :
    List Token × Except String Token :=
  CreateOrUpdateGitHubTokenCore (firstGitHubToken userID githubUsername db)
    now newID userID githubUsername accessToken accessTokenExpiry
    refreshToken refreshTokenExpiry db

/-- `GetGitHubTokensForUser`: all GitHub rows of a user. -/
def GetGitHubTokensForUser (userID : String) (db : List Token) :
    List Token :=
  db.filter (fun t => t.userID = userID && t.platform = "GITHUB")

/-! ## User identities (`backend/models/user.go`,
`backend/repositories/user_repository.go`) -/

/-- The `models.User` row (id, unique email, display name, timestamps). -/
structure User where
  id : String
  email : String
  name : String
  createdAt : Int
  updatedAt : Int
deriving DecidableEq, Repr

/-- A gorm error as seen by the user repository callers. -/
inductive GormError where
  | errRecordNotFound
  | errOther (e : String)
deriving DecidableEq, Repr

/-- `FindUserByEmail`: `db.DB.Where("email = ?").First(&user)`. -/
def FindUserByEmail (email : String) (db : List User) :
    Except GormError User :=
  match db.find? (fun u => u.email = email) with
  | some u => .ok u
  | none => .error .errRecordNotFound

/-- `CreateUser`: assigns a fresh UUID and timestamps and inserts the row. -/
def CreateUser (now : Int) (newID : String) (email nm : String)
    (db : List User) : List User × User :=
  let u : User :=
    { id := newID, email := email, name := nm, createdAt := now,
      updatedAt := now }
  (db ++ [u], u)

/-- The branch structure of `CreateUserIfNotPresent`, parameterized over the
lookup outcome: the Go code tests only `err != nil`, so EVERY lookup error
(not just `ErrRecordNotFound`) takes the create branch. -/
def CreateUserIfNotPresentCore (res : Except GormError User) (now : Int)
    (newID : String) (email nm : String) (db : List User) :
    List User × User :=
  match res with
  | .ok u => (db, u)
  | .error _ => CreateUser now newID email nm db

/-- `CreateUserIfNotPresent`: find by email, create on any lookup error. -/
def CreateUserIfNotPresent (now : Int) (newID : String) (email nm : String)
    (db : List User) : List User × User :=
  CreateUserIfNotPresentCore (FindUserByEmail email db) now newID email nm db

/-! ## Session credential (`services/auth/auth_service.go` `GenerateJWT`,
`middleware` `RequireJWT`)

The signature is a perfect MAC: its value records the algorithm, the secret
and the signed claims, and verification recomputes and compares. -/

/-- JWT signing algorithms relevant to the middleware's method check. -/
inductive Alg where
  | HS256
  | HS384
  | HS512
  | RS256
  | noAlg
deriving DecidableEq, Repr

/-- `token.Method.(*jwt.SigningMethodHMAC)` succeeds exactly on the HMAC
family. -/
def isHMAC : Alg → Bool
  | .HS256 => true
  | .HS384 => true
  | .HS512 => true
  | _ => false

/-- The claims carried by the system's session credential. -/
structure JWTClaims where
  id : String
  email : String
  exp : Int
deriving DecidableEq, Repr

/-- A MAC value, modelled perfectly as the data that produced it. -/
structure Mac where
  alg : Alg
  secret : String
  payload : JWTClaims
deriving DecidableEq, Repr

/-- Computing the MAC of a claims payload. -/
def hmacSign (alg : Alg) (secret : String) (payload : JWTClaims) : Mac :=
  ⟨alg, secret, payload⟩

/-- A serialized JWT: the header's declared algorithm, the claims, and the
attached signature. -/
structure SignedToken where
  alg : Alg
  claims : JWTClaims
  mac : Mac
deriving DecidableEq, Repr

/-- `GenerateJWT`: claims carry the user's id, email and an expiry of
`time.Now().Add(24 * time.Hour * 7)`; signed with HS256 under the
configured secret. -/
def GenerateJWT (user : User) (now : Int) (jwtSecret : String) :
    SignedToken :=
  let expirationTime : Int := now + 24 * 3600 * 7
  let claims : JWTClaims :=
    { id := user.id, email := user.email, exp := expirationTime }
  { alg := .HS256, claims := claims,
    mac := hmacSign .HS256 jwtSecret claims }

/-- How the `RequireJWT` middleware's `jwt.ParseWithClaims` call can fail. -/
inductive VerifyError where
  | badMethod
  | badSignature
  | expired
deriving DecidableEq, Repr

/-- The token validation performed by `RequireJWT`'s
`jwt.ParseWithClaims` call: the keyfunc rejects any non-HMAC signing
method with `jwt.ErrSignatureInvalid`; then the library verifies the
signature with the returned secret and validates the `exp` claim
(valid while `now < exp`, zero leeway). -/
def RequireJWTCheck (tok : SignedToken) (jwtSecret : String) (now : Int) :
    Except VerifyError JWTClaims :=
  if !isHMAC tok.alg then .error .badMethod
  else if tok.mac ≠ hmacSign tok.alg jwtSecret tok.claims then
    .error .badSignature
  else if !(now < tok.claims.exp) then .error .expired
  else .ok tok.claims

/-! ## Configuration and OAuth URL construction
(`backend/config`, `services/auth/google_auth_service.go`,
`backend/auth/googleOAuth.go`, `backend/auth/auth.go`) -/

/-- The process-wide configuration (`envConfig`), as consumed by the auth
code. `jwtSecret` is the field read as `config.LoadConfig().JWTSecret`. -/
structure EnvConfig where
  googleClientID : String
  googleClientSecret : String
  googleCallbackURL : String
  githubClientID : String
  githubClientSecret : String
  githubCallbackURL : String
  jwtSecret : String
deriving DecidableEq, Repr

/-- An `oauth2.Config` as built by the adapters. -/
structure OAuthConfig where
  clientID : String
  clientSecret : String
  redirectURL : String
  scopes : List String
  endpoint : String
deriving DecidableEq, Repr

/-- The authorization URL produced by `oauth2.Config.AuthCodeURL` with
`AccessTypeOffline` and `ApprovalForce`, decomposed into its query
parameters. -/
structure AuthURL where
  endpoint : String
  clientID : String
  redirectURI : String
  scopes : List String
  state : String
  accessType : String
  approvalPrompt : String
deriving DecidableEq, Repr

/-- `oauth2.Config.AuthCodeURL(state, AccessTypeOffline, ApprovalForce)`. -/
def authCodeURL (cfg : OAuthConfig) (state : String) : AuthURL :=
  { endpoint := cfg.endpoint, clientID := cfg.clientID,
    redirectURI := cfg.redirectURL, scopes := cfg.scopes, state := state,
    accessType := "offline", approvalPrompt := "force" }

/-- `createGoogleOAuthConfig` (the identical `createGoogleAuth` in
`backend/auth/googleOAuth.go` is shared with it): client id/secret from
configuration, the caller-chosen redirect URL, fixed scopes. -/
def createGoogleOAuthConfig (env : EnvConfig) (redirectURL : String) :
    OAuthConfig :=
  { clientID := env.googleClientID, clientSecret := env.googleClientSecret,
    redirectURL := redirectURL,
    scopes := ["https://www.googleapis.com/auth/userinfo.email",
               "https://www.googleapis.com/auth/userinfo.profile"],
    endpoint := "google" }

/-- `createGitHubOAuthConfig`: fixed scopes `repo`, `delete_repo`. -/
def createGitHubOAuthConfig (env : EnvConfig) (redirectURL : String) :
    OAuthConfig :=
  { clientID := env.githubClientID, clientSecret := env.githubClientSecret,
    redirectURL := redirectURL, scopes := ["repo", "delete_repo"],
    endpoint := "github" }

/-- `generateGoogleOAuthURL` (service layer): always the configured
`GoogleCallbackURL`. -/
def generateGoogleOAuthURL (env : EnvConfig) (state : String) : AuthURL :=
  authCodeURL (createGoogleOAuthConfig env env.googleCallbackURL) state

/-- `generateGitHubOAuthURL` (service layer): always the configured
`GithubCallbackURL`. -/
def generateGitHubOAuthURL (env : EnvConfig) (state : String) : AuthURL :=
  authCodeURL (createGitHubOAuthConfig env env.githubCallbackURL) state

/-- `GoogleAuthService.GenerateOAuthURL`: mints a state (a parameter here)
and builds the URL from the fixed configured redirect; it reads no client
input at all. -/
def GoogleServiceGenerateOAuthURL (env : EnvConfig) (state : String) :
    AuthURL :=
  generateGoogleOAuthURL env state

/-- `GitHubAuthService.GenerateOAuthURL`: same shape for GitHub. -/
def GitHubServiceGenerateOAuthURL (env : EnvConfig) (state : String) :
    AuthURL :=
  generateGitHubOAuthURL env state

/-- `GenerateOAuthUrlWithRedirectUrl` (`backend/auth/googleOAuth.go`): uses
the provided redirect URL, defaulting to the hardcoded
`http://localhost:3000/auth/google/callback` when it is empty. -/
def GenerateOAuthUrlWithRedirectUrl (env : EnvConfig)
    (state redirectURL : String) : AuthURL :=
  let r := if redirectURL = "" then
    "http://localhost:3000/auth/google/callback" else redirectURL
  authCodeURL (createGoogleOAuthConfig env r) state

/-- The body accepted by `GenerateOAuthURLHandler` in
`backend/auth/auth.go`. -/
structure GenerateOAuthURLRequest where
  redirectURL : String
deriving DecidableEq, Repr

/-- `GenerateOAuthURLHandler` (`backend/auth/auth.go`): binds the client
body and forwards its `redirectURL` into the authorization URL. -/
def GenerateOAuthURLHandler (env : EnvConfig) (state : String)
    (body : GenerateOAuthURLRequest) : AuthURL :=
  GenerateOAuthUrlWithRedirectUrl env state body.redirectURL

/-! ## Provider grants and the code exchange
(`golang.org/x/oauth2` `Token.Valid`, `exchangeGitHubCodeForTokens`,
`exchangeGoogleCodeForTokens`) -/

/-- An `oauth2.Token` as returned by a provider's token endpoint.
`expiry = 0` models Go's zero `Expiry` time (no known expiry);
`refreshToken` is a plain string, empty when the provider sent none. -/
structure RawToken where
  accessToken : String
  tokenType : String
  refreshToken : String
  expiry : Int
deriving DecidableEq, Repr

/-- `oauth2.Token.expired()`: false for the zero time, otherwise compares
`Expiry` minus the 10-second `defaultExpiryDelta` against now. -/
def tokenExpired (t : RawToken) (now : Int) : Bool :=
  if t.expiry = 0 then false else t.expiry - 10 < now

/-- `oauth2.Token.Valid()`: non-empty access token and not expired. -/
def tokenValid (t : RawToken) (now : Int) : Bool :=
  t.accessToken ≠ "" && !tokenExpired t now

/-- `exchangeGitHubCodeForTokens`, parameterized over the network exchange
outcome: on success it normalizes an empty token type to "Bearer" BEFORE
the validity check, then validates. -/
def ExchangeGitHubCodeForTokens (res : Except String RawToken)
    (now : Int) : Except String RawToken :=
  match res with
  | .error e => .error ("GitHub code exchange failed: " ++ e)
  | .ok tok =>
      let tok1 := if tok.tokenType = "" then
        { tok with tokenType := "Bearer" } else tok
      if tokenValid tok1 now then .ok tok1
      else .error "received invalid token from GitHub"

/-- `exchangeGoogleCodeForTokens`: validity check only, no normalization. -/
def ExchangeGoogleCodeForTokens (res : Except String RawToken)
    (now : Int) : Except String RawToken :=
  match res with
  | .error e => .error ("code exchange failed: " ++ e)
  | .ok tok =>
      if tokenValid tok now then .ok tok
      else .error "received invalid token from Google"

/-! ## The primary sign-in orchestrator
(`GoogleAuthService.ProcessAuthCode`) -/

/-- The profile returned by Google's userinfo endpoint. -/
structure GoogleUserInfo where
  email : String
  name : String
deriving DecidableEq, Repr

/-- The body of `POST /auth/google/`. -/
structure ProcessAuthCodeRequest where
  code : String
  state : String
deriving DecidableEq, Repr

/-- The structured `AuthError`. -/
structure AuthError where
  message : String
  code : String
  details : String
deriving DecidableEq, Repr

/-- The success response of the primary flow. -/
structure ProcessAuthCodeResponse where
  message : String
  success : Bool
  token : SignedToken
deriving DecidableEq, Repr

/-- `ProcessAuthCode`, parameterized over the two network outcomes (the raw
code-exchange response and the userinfo response). It consumes the state,
exchanges the code, fetches the profile, resolves-or-creates the user,
upserts the Google credential — passing the ALWAYS-present pointers
`&token.Expiry` and `&token.RefreshToken`, hence `some tok.expiry` and
`some tok.refreshToken` — and finally issues the session JWT. Returns the
updated registry, user table, token table, and the outcome. -/
def ProcessAuthCode (env : EnvConfig) (reg : Finset String)
    (request : ProcessAuthCodeRequest) (exchangeNet : Except String RawToken)
    (userInfoRes : Except String GoogleUserInfo) (now : Int)
    (newUserID newTokenID : String) (udb : List User) (tdb : List Token) :
    Finset String × List User × List Token ×
      Except AuthError ProcessAuthCodeResponse :=
  let consumed := VerifyAndConsumeState request.state reg
  if !consumed.1 then
    (consumed.2, udb, tdb,
      .error ⟨"Invalid state parameter", "INVALID_STATE", ""⟩)
  else
    match ExchangeGoogleCodeForTokens exchangeNet now with
    | .error e =>
        (consumed.2, udb, tdb,
          .error ⟨"Failed to exchange authorization code for tokens",
                  "TOKEN_EXCHANGE_FAILED", e⟩)
    | .ok tok =>
        match userInfoRes with
        | .error e =>
            (consumed.2, udb, tdb,
              .error ⟨"Failed to retrieve user information from Google",
                      "USER_INFO_FAILED", e⟩)
        | .ok userInfo =>
            let created := CreateUserIfNotPresent now newUserID
              userInfo.email userInfo.name udb
            let upserted := UpsertToken now newTokenID created.2.id "GOOGLE"
              tok.accessToken (some tok.expiry) (some tok.refreshToken) none
              tdb
            match upserted.2 with
            | .error e =>
                (consumed.2, created.1, upserted.1,
                  .error ⟨"Failed to store OAuth tokens in database",
                          "TOKEN_STORAGE_FAILED", e⟩)
            | .ok _ =>
                let tokenString := GenerateJWT created.2 now env.jwtSecret
                (consumed.2, created.1, upserted.1,
                  .ok ⟨"Authentication successful", true, tokenString⟩)

/-- A concrete configuration used to instantiate the handler-level
theorems. -/
def envEx : EnvConfig :=
  { googleClientID := "gid", googleClientSecret := "gsec",
    googleCallbackURL := "http://localhost:9753/auth/google/callback",
    githubClientID := "ghid", githubClientSecret := "ghsec",
    githubCallbackURL := "http://localhost:9753/auth/github/callback",
    jwtSecret := "jwtkey" }

/-- A concrete stored user for the user-creation counterexample. -/
def userEx : User := ⟨"u1", "a@b.c", "A", 0, 0⟩

/-- The concrete row written by the Google-flow upsert of an empty refresh
token. -/
def rowEx : Token :=
  ⟨"t1", "u1", "GOOGLE", none, "acc", some 100, some "", none, 5, some 5,
    5, 5⟩

/-- Number of stored rows carrying a given (user, platform, account)
triple. -/
def tripleCount (userID platform : String) (acct : Option String)
    (db : List Token) : Nat :=
  (db.filter (matchesTriple userID platform acct)).length

/-- The uniqueness invariant enforced by the `idx_user_platform_account`
unique index of `models.Token`: at most one live row per triple. -/
def uniqueTriples (db : List Token) : Prop :=
  ∀ u p a, tripleCount u p a db ≤ 1

/-- Distinctness of primary keys, as guaranteed by the `id` primary key. -/
def uniqueIDs (db : List Token) : Prop :=
  (db.map Token.id).Nodup

/-! ## Theorems -/

/-- Registry operations that neither add, discard, nor consume `s` preserve
membership of `s`. -/
theorem mem_applyRegOp_iff (s : String) (op : RegOp) (r : Finset String)
    (h1 : op ≠ RegOp.add s) (h2 : op ≠ RegOp.discard s)
    (h3 : op ≠ RegOp.consume s) :
    s ∈ applyRegOp op r ↔ s ∈ r := by
  cases op with
  | add s2 =>
      have hne : s ≠ s2 := fun h => h1 (by rw [h])
      simp [applyRegOp, AddState, Finset.mem_insert, hne]
  | consume s2 =>
      have hne : s ≠ s2 := fun h => h3 (by rw [h])
      by_cases hm : s2 ∈ r <;>
        simp [applyRegOp, VerifyAndConsumeState, hm, Finset.mem_erase, hne]
  | discard s2 =>
      have hne : s ≠ s2 := fun h => h2 (by rw [h])
      simp [applyRegOp, RemoveState, Finset.mem_erase, hne]

/-- No registry operation other than an add of `s` can make `s` present. -/
theorem not_mem_applyRegOp (s : String) (op : RegOp) (r : Finset String)
    (h1 : op ≠ RegOp.add s) (h : s ∉ r) : s ∉ applyRegOp op r := by
  cases op with
  | add s2 =>
      have hne : s ≠ s2 := fun hh => h1 (by rw [hh])
      simp [applyRegOp, AddState, Finset.mem_insert, hne, h]
  | consume s2 =>
      by_cases hm : s2 ∈ r <;>
        simp [applyRegOp, VerifyAndConsumeState, hm, Finset.mem_erase, h]
  | discard s2 =>
      simp [applyRegOp, RemoveState, Finset.mem_erase, h]

/-- Sequence version of `mem_applyRegOp_iff`. -/
theorem mem_applyRegOps_iff (s : String) (ops : List RegOp)
    (r : Finset String)
    (h : ∀ op ∈ ops, op ≠ RegOp.add s ∧ op ≠ RegOp.discard s ∧
      op ≠ RegOp.consume s) :
    s ∈ applyRegOps ops r ↔ s ∈ r := by
  induction ops generalizing r with
  | nil => simp [applyRegOps]
  | cons op ops ih =>
      have hop := h op (List.mem_cons_self op ops)
      have hrest : ∀ o ∈ ops, o ≠ RegOp.add s ∧ o ≠ RegOp.discard s ∧
          o ≠ RegOp.consume s :=
        fun o ho => h o (List.mem_cons_of_mem op ho)
      show s ∈ applyRegOps ops (applyRegOp op r) ↔ s ∈ r
      rw [ih (applyRegOp op r) hrest,
        mem_applyRegOp_iff s op r hop.1 hop.2.1 hop.2.2]

/-- Sequence version of `not_mem_applyRegOp`. -/
theorem not_mem_applyRegOps (s : String) (ops : List RegOp)
    (r : Finset String) (h : ∀ op ∈ ops, op ≠ RegOp.add s) (h0 : s ∉ r) :
    s ∉ applyRegOps ops r := by
  induction ops generalizing r with
  | nil => simpa [applyRegOps] using h0
  | cons op ops ih =>
      have hop := h op (List.mem_cons_self op ops)
      have hrest : ∀ o ∈ ops, o ≠ RegOp.add s :=
        fun o ho => h o (List.mem_cons_of_mem op ho)
      show s ∉ applyRegOps ops (applyRegOp op r)
      exact ih (applyRegOp op r) hrest (not_mem_applyRegOp s op r hop h0)

/-- C1 counterexample: the claim quantifies over "any later sequence of
registry operations that does not re-add s". The sequence consisting of one
`RemoveState s` (the registry's discard operation) does not re-add `s`, yet
after it the FIRST call to `VerifyAndConsumeState s` returns false, not
true as the claim requires. -/
theorem c1_counterexample :
    (VerifyAndConsumeState "s"
      (applyRegOps [RegOp.discard "s"] (AddState "s" (∅ : Finset String)))).1
      = false := by
  decide

/-- C1 (amended): for every issued state `s`, after any later sequence of
registry operations that neither re-adds, nor discards, nor already
consumes `s`, the first `VerifyAndConsumeState s` returns true; after that
consumption, any further operations that do not re-add `s` leave every
subsequent `VerifyAndConsumeState s` returning false; and from a registry
that never contained `s`, operations that do not add `s` never let
`VerifyAndConsumeState s` return true. -/
theorem c1_state_single_use (r : Finset String) (s : String)
    (ops ops2 : List RegOp)
    (h1 : ∀ op ∈ ops, op ≠ RegOp.add s ∧ op ≠ RegOp.discard s ∧
      op ≠ RegOp.consume s)
    (h2 : ∀ op ∈ ops2, op ≠ RegOp.add s) :
    (VerifyAndConsumeState s (applyRegOps ops (AddState s r))).1 = true ∧
    (VerifyAndConsumeState s (applyRegOps ops2
      (VerifyAndConsumeState s (applyRegOps ops (AddState s r))).2)).1
      = false ∧
    (s ∉ r → (VerifyAndConsumeState s (applyRegOps ops2 r)).1 = false) := by
  have hmem : s ∈ applyRegOps ops (AddState s r) :=
    (mem_applyRegOps_iff s ops (AddState s r) h1).mpr
      (Finset.mem_insert_self s r)
  refine ⟨by simp [VerifyAndConsumeState, hmem], ?_, ?_⟩
  · have hset : (VerifyAndConsumeState s (applyRegOps ops (AddState s r))).2
        = (applyRegOps ops (AddState s r)).erase s := by
      simp [VerifyAndConsumeState, hmem]
    have hgone : s ∉ (applyRegOps ops (AddState s r)).erase s :=
      Finset.not_mem_erase s _
    have habs := not_mem_applyRegOps s ops2 _ h2 hgone
    rw [hset]
    simp [VerifyAndConsumeState, habs]
  · intro h0
    have habs := not_mem_applyRegOps s ops2 r h2 h0
    simp [VerifyAndConsumeState, habs]

/-- C1 witness: a concrete run of the amended statement, with interleaved
operations touching other tokens only. -/
theorem c1_witness :
    (∀ op ∈ [RegOp.add "t", RegOp.consume "t"], op ≠ RegOp.add "s" ∧
      op ≠ RegOp.discard "s" ∧ op ≠ RegOp.consume "s") ∧
    (∀ op ∈ [RegOp.discard "u"], op ≠ RegOp.add "s") ∧
    ((VerifyAndConsumeState "s" (applyRegOps [RegOp.add "t", RegOp.consume "t"]
        (AddState "s" (∅ : Finset String)))).1 = true ∧
      (VerifyAndConsumeState "s" (applyRegOps [RegOp.discard "u"]
        (VerifyAndConsumeState "s" (applyRegOps
          [RegOp.add "t", RegOp.consume "t"]
          (AddState "s" (∅ : Finset String)))).2)).1 = false ∧
      ("s" ∉ (∅ : Finset String) →
        (VerifyAndConsumeState "s"
          (applyRegOps [RegOp.discard "u"] (∅ : Finset String))).1 = false)) :=
  ⟨by decide, by decide,
    c1_state_single_use ∅ "s" [RegOp.add "t", RegOp.consume "t"]
      [RegOp.discard "u"] (by decide) (by decide)⟩

/-- C10: `VerifyAndConsumeState t` removes at most the entry `t`: any other
token's presence is unchanged; when the call returns false the registry is
completely unchanged; and the unconditional `RemoveState t` likewise leaves
every other token's presence unchanged. -/
theorem c10_consume_frame (t t2 : String) (r : Finset String)
    (h : t2 ≠ t) :
    (t2 ∈ (VerifyAndConsumeState t r).2 ↔ t2 ∈ r) ∧
    ((VerifyAndConsumeState t r).1 = false →
      (VerifyAndConsumeState t r).2 = r) ∧
    (t2 ∈ RemoveState t r ↔ t2 ∈ r) := by
  by_cases hm : t ∈ r <;>
    simp [VerifyAndConsumeState, RemoveState, hm, Finset.mem_erase, h]

/-- C10 witness: a concrete registry holding two tokens. -/
theorem c10_witness :
    ("b" ≠ "a") ∧
    (("b" ∈ (VerifyAndConsumeState "a" ({"a", "b"} : Finset String)).2 ↔
        "b" ∈ ({"a", "b"} : Finset String)) ∧
      ((VerifyAndConsumeState "a" ({"a", "b"} : Finset String)).1 = false →
        (VerifyAndConsumeState "a" ({"a", "b"} : Finset String)).2 =
          ({"a", "b"} : Finset String)) ∧
      ("b" ∈ RemoveState "a" ({"a", "b"} : Finset String) ↔
        "b" ∈ ({"a", "b"} : Finset String))) :=
  ⟨by decide, c10_consume_frame "a" "b" {"a", "b"} (by decide)⟩

/-- C6: in both `UpsertToken` and `CreateOrUpdateGitHubToken`, a lookup
error other than `ErrRecordNotFound` is returned unmodified with the store
untouched; a found row takes the update branch (no row added); and only the
definitive not-found result takes the create branch (exactly one row
appended). -/
theorem c6_error_propagation (e : String) (now : Int)
    (newID userID platform githubUsername accessToken : String)
    (ate : Option Int) (rt : Option String) (rte : Option Int)
    (db : List Token) (t : Token) :
    UpsertTokenCore (.errOther e) now newID userID platform accessToken
        ate rt rte db = (db, .error e) ∧
    CreateOrUpdateGitHubTokenCore (.errOther e) now newID userID
        githubUsername accessToken ate rt rte db = (db, .error e) ∧
    (UpsertTokenCore (.found t) now newID userID platform accessToken
        ate rt rte db).1.length = db.length ∧
    (CreateOrUpdateGitHubTokenCore (.found t) now newID userID
        githubUsername accessToken ate rt rte db).1.length = db.length ∧
    (UpsertTokenCore .errRecordNotFound now newID userID platform
        accessToken ate rt rte db).1 =
      db ++ [(CreateToken now newID userID platform accessToken ate rt rte
        db).2] ∧
    (CreateOrUpdateGitHubTokenCore .errRecordNotFound now newID userID
        githubUsername accessToken ate rt rte db).1 =
      db ++ [(CreateTokenWithAccountIdentifier now newID userID "GITHUB"
        (some githubUsername) accessToken ate rt rte db).2] := by
  refine ⟨rfl, rfl, ?_, ?_, rfl, rfl⟩ <;>
    simp [UpsertTokenCore, CreateOrUpdateGitHubTokenCore, UpdateToken]

/-- C9: a GitHub token-exchange response with an empty token-type field, a
non-empty access token, and no expiry in the past succeeds, and the
returned grant is the same grant with its token type set to "Bearer". -/
theorem c9_bearer_normalization (t : RawToken) (now : Int)
    (h1 : t.tokenType = "") (h2 : t.accessToken ≠ "")
    (h3 : tokenExpired t now = false) :
    ExchangeGitHubCodeForTokens (.ok t) now =
      .ok { t with tokenType := "Bearer" } := by
  have hexp : tokenExpired { t with tokenType := "Bearer" } now = false := by
    simpa [tokenExpired] using h3
  simp [ExchangeGitHubCodeForTokens, h1, tokenValid, h2, hexp]

/-- C9 witness: GitHub's typical response (no token type, no expiry). -/
theorem c9_witness :
    (⟨"gho_abc", "", "", 0⟩ : RawToken).tokenType = "" ∧
    (⟨"gho_abc", "", "", 0⟩ : RawToken).accessToken ≠ "" ∧
    tokenExpired ⟨"gho_abc", "", "", 0⟩ 100 = false ∧
    ExchangeGitHubCodeForTokens (.ok ⟨"gho_abc", "", "", 0⟩) 100 =
      .ok ⟨"gho_abc", "Bearer", "", 0⟩ :=
  ⟨by decide, by decide, by decide,
    c9_bearer_normalization ⟨"gho_abc", "", "", 0⟩ 100 (by decide)
      (by decide) (by decide)⟩

/-- C3: a session credential issued for user `u` verifies under the same
secret before its expiry and yields exactly `u`'s id and email together
with the issuance time plus 7 days; under any different secret it fails
with a signature error; and once the expiry is reached it fails with an
expiry error. -/
theorem c3_session_roundtrip (u : User) (t0 tv : Int)
    (secret secret2 : String) :
    (tv < t0 + 24 * 3600 * 7 →
      RequireJWTCheck (GenerateJWT u t0 secret) secret tv =
        .ok ⟨u.id, u.email, t0 + 24 * 3600 * 7⟩) ∧
    (secret2 ≠ secret →
      RequireJWTCheck (GenerateJWT u t0 secret) secret2 tv =
        .error .badSignature) ∧
    (t0 + 24 * 3600 * 7 ≤ tv →
      RequireJWTCheck (GenerateJWT u t0 secret) secret tv =
        .error .expired) := by
  refine ⟨?_, ?_, ?_⟩
  · intro h
    simp [GenerateJWT, RequireJWTCheck, isHMAC, hmacSign]
    omega
  · intro h
    simp [GenerateJWT, RequireJWTCheck, isHMAC, hmacSign]
    intro hh
    exact absurd hh.symm h
  · intro h
    simp [GenerateJWT, RequireJWTCheck, isHMAC, hmacSign]
    omega

/-- C3 witness: concrete user, secrets and times exercising all three
branches of the round-trip theorem. -/
theorem c3_witness :
    ((10 : Int) < 0 + 24 * 3600 * 7 →
      RequireJWTCheck (GenerateJWT ⟨"u1", "u1@example.com", "U", 0, 0⟩ 0 "k")
        "k" 10 = .ok ⟨"u1", "u1@example.com", 0 + 24 * 3600 * 7⟩) ∧
    (("k2" ≠ "k") →
      RequireJWTCheck (GenerateJWT ⟨"u1", "u1@example.com", "U", 0, 0⟩ 0 "k")
        "k2" 10 = .error .badSignature) ∧
    ((0 : Int) + 24 * 3600 * 7 ≤ 700000 →
      RequireJWTCheck (GenerateJWT ⟨"u1", "u1@example.com", "U", 0, 0⟩ 0 "k")
        "k" 700000 = .error .expired) :=
  ⟨(c3_session_roundtrip ⟨"u1", "u1@example.com", "U", 0, 0⟩ 0 10 "k" "k2").1,
    (c3_session_roundtrip ⟨"u1", "u1@example.com", "U", 0, 0⟩ 0 10 "k"
      "k2").2.1,
    (c3_session_roundtrip ⟨"u1", "u1@example.com", "U", 0, 0⟩ 0 700000 "k"
      "k2").2.2⟩

/-- C5 counterexample: the middleware's keyfunc accepts the whole HMAC
family, not solely HS256. A token declaring HS384 and carrying a valid
HS384 MAC under the server secret is ACCEPTED, while the claim requires
every algorithm other than HS256 to be rejected. -/
theorem c5_counterexample :
    (⟨Alg.HS384, ⟨"u1", "u1@example.com", 100⟩,
        hmacSign Alg.HS384 "secret" ⟨"u1", "u1@example.com", 100⟩⟩ :
      SignedToken).alg ≠ Alg.HS256 ∧
    RequireJWTCheck
      ⟨Alg.HS384, ⟨"u1", "u1@example.com", 100⟩,
        hmacSign Alg.HS384 "secret" ⟨"u1", "u1@example.com", 100⟩⟩
      "secret" 0 = .ok ⟨"u1", "u1@example.com", 100⟩ := by
  refine ⟨by decide, ?_⟩
  simp [RequireJWTCheck, isHMAC, hmacSign]

/-- C5 (amended): the middleware rejects any token whose declared signing
algorithm is outside the symmetric HMAC family (HS256/HS384/HS512),
regardless of its signature or claims; tokens declaring an HMAC-family
algorithm pass the method check. -/
theorem c5_reject_non_hmac (tok : SignedToken) (secret : String)
    (now : Int) (h : isHMAC tok.alg = false) :
    RequireJWTCheck tok secret now = .error .badMethod := by
  simp [RequireJWTCheck, h]

/-- C5 witness: an RS256-declaring token is rejected with the method error
whatever its MAC says. -/
theorem c5_witness :
    isHMAC (⟨Alg.RS256, ⟨"u1", "u1@example.com", 100⟩,
        hmacSign Alg.RS256 "secret" ⟨"u1", "u1@example.com", 100⟩⟩ :
      SignedToken).alg = false ∧
    RequireJWTCheck
      ⟨Alg.RS256, ⟨"u1", "u1@example.com", 100⟩,
        hmacSign Alg.RS256 "secret" ⟨"u1", "u1@example.com", 100⟩⟩
      "secret" 0 = .error .badMethod :=
  ⟨by decide,
    c5_reject_non_hmac
      ⟨Alg.RS256, ⟨"u1", "u1@example.com", 100⟩,
        hmacSign Alg.RS256 "secret" ⟨"u1", "u1@example.com", 100⟩⟩
      "secret" 0 (by decide)⟩


/-- C4 counterexample: two oauth-url requests to the `backend/auth` package
handler `GenerateOAuthURLHandler` that differ only in the client-supplied
`redirectURL` body field produce authorization URLs embedding DIFFERENT
redirect targets, and the client-supplied value — not the configured
provider callback — is what gets embedded. -/
theorem c4_counterexample :
    (GenerateOAuthURLHandler envEx "st"
        ⟨"https://attacker.example/cb"⟩).redirectURI ≠
      (GenerateOAuthURLHandler envEx "st" ⟨""⟩).redirectURI ∧
    (GenerateOAuthURLHandler envEx "st"
        ⟨"https://attacker.example/cb"⟩).redirectURI ≠
      envEx.googleCallbackURL := by
  decide

/-- C4 (amended): the routed service-layer oauth-url operations take no
client input and always embed the configured provider callback URL; the
legacy `GenerateOAuthURLHandler`, however, embeds the client-supplied
`redirectURL` whenever it is non-empty, and a hardcoded localhost default
(not the configured callback) when it is empty. -/
theorem c4_redirect_fixed_in_service (env : EnvConfig)
    (st rURL : String) :
    (GoogleServiceGenerateOAuthURL env st).redirectURI =
      env.googleCallbackURL ∧
    (GitHubServiceGenerateOAuthURL env st).redirectURI =
      env.githubCallbackURL ∧
    (rURL ≠ "" →
      (GenerateOAuthURLHandler env st ⟨rURL⟩).redirectURI = rURL) ∧
    (GenerateOAuthURLHandler env st ⟨""⟩).redirectURI =
      "http://localhost:3000/auth/google/callback" := by
  refine ⟨rfl, rfl, ?_, rfl⟩
  intro h
  simp [GenerateOAuthURLHandler, GenerateOAuthUrlWithRedirectUrl, h,
    authCodeURL, createGoogleOAuthConfig]

/-- C4 witness: the service URLs embed the configured callbacks while the
legacy handler embeds the client's value. -/
theorem c4_witness :
    ("https://attacker.example/cb" ≠ "") ∧
    ((GoogleServiceGenerateOAuthURL envEx "st").redirectURI =
        envEx.googleCallbackURL ∧
      (GitHubServiceGenerateOAuthURL envEx "st").redirectURI =
        envEx.githubCallbackURL ∧
      ("https://attacker.example/cb" ≠ "" →
        (GenerateOAuthURLHandler envEx "st"
          ⟨"https://attacker.example/cb"⟩).redirectURI =
          "https://attacker.example/cb") ∧
      (GenerateOAuthURLHandler envEx "st" ⟨""⟩).redirectURI =
        "http://localhost:3000/auth/google/callback") :=
  ⟨by decide,
    c4_redirect_fixed_in_service envEx "st" "https://attacker.example/cb"⟩

/-- The pure token lookups only ever report a row or not-found; the
`errOther` injection point is reserved for datastore faults. -/
theorem firstTokenByUserPlatform_ne_errOther (userID platform : String)
    (db : List Token) (e : String) :
    firstTokenByUserPlatform userID platform db ≠ .errOther e := by
  unfold firstTokenByUserPlatform
  cases db.find? (fun t => t.userID = userID && t.platform = platform) <;>
    simp


/-- C7 counterexample: with the user for `a@b.c` already stored, a lookup
failure OTHER than absence (an injected datastore error) still takes the
create branch of `CreateUserIfNotPresent` — the Go code tests only
`err != nil` — so a second user row for the same email is created, where
the claim requires that none be created. -/
theorem c7_counterexample :
    FindUserByEmail "a@b.c" [userEx] = .ok userEx ∧
    (CreateUserIfNotPresentCore (.error (.errOther "connection reset")) 5
      "u2" "a@b.c" "A" [userEx]).1.length = 2 := by
  constructor
  · rfl
  · rfl

/-- C7 (amended): when the email lookup SUCCEEDS, no new user row is
created and the stored identity is returned, and the full primary sign-in
flow still issues a session token while leaving the user table unchanged;
but when the lookup fails for any reason — absence or any other error —
the code attempts to create a new user row. -/
theorem c7_user_reuse (now : Int) (newID email nm : String)
    (udb : List User) (u : User) (e : GormError) :
    (FindUserByEmail email udb = .ok u →
      CreateUserIfNotPresent now newID email nm udb = (udb, u)) ∧
    (CreateUserIfNotPresentCore (.error e) now newID email nm udb =
      (udb ++ [⟨newID, email, nm, now, now⟩],
        ⟨newID, email, nm, now, now⟩)) ∧
    (∀ (env : EnvConfig) (reg : Finset String)
        (request : ProcessAuthCodeRequest) (tok : RawToken)
        (info : GoogleUserInfo) (newTokenID : String) (tdb : List Token),
      (VerifyAndConsumeState request.state reg).1 = true →
      tokenValid tok now = true →
      FindUserByEmail info.email udb = .ok u →
      (ProcessAuthCode env reg request (.ok tok) (.ok info) now newID
        newTokenID udb tdb).2.1 = udb ∧
      ((ProcessAuthCode env reg request (.ok tok) (.ok info) now newID
        newTokenID udb tdb).2.2.2).isOk = true) := by
  refine ⟨?_, ?_, ?_⟩
  · intro h
    simp [CreateUserIfNotPresent, h, CreateUserIfNotPresentCore]
  · rfl
  · intro env reg request tok info newTokenID tdb hstate hvalid hfind
    have hex : ExchangeGoogleCodeForTokens (.ok tok) now = .ok tok := by
      simp [ExchangeGoogleCodeForTokens, hvalid]
    have hcreate : CreateUserIfNotPresent now newID info.email info.name udb
        = (udb, u) := by
      simp [CreateUserIfNotPresent, hfind, CreateUserIfNotPresentCore]
    have hup : ∃ db2 t2,
        UpsertToken now newTokenID u.id "GOOGLE" tok.accessToken
          (some tok.expiry) (some tok.refreshToken) none tdb =
          (db2, .ok t2) := by
      unfold UpsertToken UpsertTokenCore
      cases hfr : firstTokenByUserPlatform u.id "GOOGLE" tdb with
      | found t => exact ⟨_, _, rfl⟩
      | errRecordNotFound => exact ⟨_, _, rfl⟩
      | errOther e2 =>
          exact absurd hfr
            (firstTokenByUserPlatform_ne_errOther u.id "GOOGLE" tdb e2)
    obtain ⟨db2, t2, hupeq⟩ := hup
    simp [ProcessAuthCode, hstate, hex, hcreate, hupeq, Except.isOk,
      Except.toBool]

/-- C7 witness: a repeat Google sign-in for an already-stored email leaves
the user table unchanged and still returns a session token. -/
theorem c7_witness :
    (FindUserByEmail "a@b.c" [userEx] = .ok userEx) ∧
    (CreateUserIfNotPresent 5 "u9" "a@b.c" "A" [userEx] =
      ([userEx], userEx)) ∧
    ((VerifyAndConsumeState "s" (AddState "s" (∅ : Finset String))).1 =
      true) ∧
    (tokenValid ⟨"acc", "Bearer", "r", 1000⟩ 5 = true) ∧
    ((ProcessAuthCode envEx (AddState "s" (∅ : Finset String))
        ⟨"code", "s"⟩ (.ok ⟨"acc", "Bearer", "r", 1000⟩)
        (.ok ⟨"a@b.c", "A"⟩) 5 "u9" "t1" [userEx] []).2.1 = [userEx] ∧
      ((ProcessAuthCode envEx (AddState "s" (∅ : Finset String))
        ⟨"code", "s"⟩ (.ok ⟨"acc", "Bearer", "r", 1000⟩)
        (.ok ⟨"a@b.c", "A"⟩) 5 "u9" "t1" [userEx] []).2.2.2).isOk =
        true) :=
  ⟨rfl,
    (c7_user_reuse 5 "u9" "a@b.c" "A" [userEx] userEx
      .errRecordNotFound).1 rfl,
    by decide, by decide,
    (c7_user_reuse 5 "u9" "a@b.c" "A" [userEx] userEx
      .errRecordNotFound).2.2 envEx (AddState "s" (∅ : Finset String))
      ⟨"code", "s"⟩ ⟨"acc", "Bearer", "r", 1000⟩ ⟨"a@b.c", "A"⟩ "t1" []
      (by decide) (by decide) rfl⟩

/-- C8 counterexample: the primary Google sign-in persists the grant with
`&token.RefreshToken`, a pointer that is never nil, so a grant whose
refresh-token string is EMPTY still gets a refresh-issuance timestamp on
the stored row, where the claim requires the field to be left unset. -/
theorem c8_counterexample :
    (⟨"acc", "Bearer", "", 1000⟩ : RawToken).refreshToken = "" ∧
    ((ProcessAuthCode envEx (AddState "s" (∅ : Finset String))
        ⟨"code", "s"⟩ (.ok ⟨"acc", "Bearer", "", 1000⟩)
        (.ok ⟨"a@b.c", "A"⟩) 5 "u1" "t1" [] []).2.2.1.map
      Token.refreshTokenIssuedAt) = [some 5] := by
  constructor
  · rfl
  · decide

/-- C8 (amended): the repository's create and update paths set the
refresh-issuance timestamp exactly when the refresh-token ARGUMENT is a
present pointer; but the primary Google sign-in always passes a present
pointer to the grant's refresh-token string, so every row it writes gets
the timestamp even when that string is empty. -/
theorem c8_refresh_stamp (now : Int)
    (newID userID platform atk rts : String) (acct : Option String)
    (ate : Option Int) (rt : Option String) (rte : Option Int)
    (db : List Token) (existing : Token) (exp2 : Int) :
    ((CreateTokenWithAccountIdentifier now newID userID platform acct atk
        ate rt rte db).2.refreshTokenIssuedAt =
      if rt.isSome then some now else none) ∧
    ((UpdateToken now existing atk ate rt rte db).2.refreshTokenIssuedAt =
      if rt.isSome then some now else none) ∧
    (∀ (r : Token) (db2 : List Token),
      UpsertToken now newID userID "GOOGLE" atk (some exp2) (some rts) none
        db = (db2, .ok r) →
      r.refreshTokenIssuedAt = some now) := by
  refine ⟨rfl, rfl, ?_⟩
  intro r db2 h
  unfold UpsertToken UpsertTokenCore at h
  cases hfr : firstTokenByUserPlatform userID "GOOGLE" db with
  | found t =>
      rw [hfr] at h
      have := congrArg Prod.snd h
      simp only [UpdateToken] at this ⊢
      cases this
      rfl
  | errRecordNotFound =>
      rw [hfr] at h
      have := congrArg Prod.snd h
      simp only [CreateToken, CreateTokenWithAccountIdentifier] at this ⊢
      cases this
      rfl
  | errOther e2 =>
      exact absurd hfr
        (firstTokenByUserPlatform_ne_errOther userID "GOOGLE" db e2)

/-- C8 witness: with a present (even empty) refresh token the timestamp is
set; the create/update-path conjuncts evaluate symmetrically. -/
theorem c8_witness :
    (UpsertToken 5 "t1" "u1" "GOOGLE" "acc" (some 100) (some "") none [] =
      ([rowEx], .ok rowEx)) ∧
    rowEx.refreshTokenIssuedAt = some 5 :=
  ⟨rfl,
    (c8_refresh_stamp 5 "t1" "u1" "GOOGLE" "acc" "" none (some 100) none
      none [] rowEx 100).2.2 rowEx [rowEx] rfl⟩

/-- A list of length at most one has at most one member. -/
theorem list_len_le_one_eq {α : Type} {l : List α} (h : l.length ≤ 1)
    {a b : α} (ha : a ∈ l) (hb : b ∈ l) : a = b := by
  cases l with
  | nil => cases ha
  | cons x xs =>
      cases xs with
      | nil =>
          rw [List.mem_singleton] at ha hb
          rw [ha, hb]
      | cons y ys => simp at h

/-- Appending one row adds to a triple's count exactly when the row
matches. -/
theorem tripleCount_append (u p : String) (a : Option String)
    (db : List Token) (t : Token) :
    tripleCount u p a (db ++ [t]) = tripleCount u p a db +
      (if matchesTriple u p a t then 1 else 0) := by
  unfold tripleCount
  rw [List.filter_append, List.length_append]
  cases h : matchesTriple u p a t <;> simp [h]

/-- The triple lookup misses exactly when the triple's count is zero. -/
theorem find?_triple_none_iff (u p : String) (a : Option String)
    (db : List Token) :
    db.find? (matchesTriple u p a) = none ↔ tripleCount u p a db = 0 := by
  rw [List.find?_eq_none]
  unfold tripleCount
  rw [List.length_eq_zero, List.filter_eq_nil_iff]

/-- Replacing the (unique) row with a given id by a row that matches the
same triples leaves every triple count unchanged. -/
theorem tripleCount_replace (db : List Token) (told tnew : Token)
    (hI : uniqueIDs db) (hmem : told ∈ db) (u p : String)
    (a : Option String)
    (hq : matchesTriple u p a tnew = matchesTriple u p a told) :
    tripleCount u p a
        (db.map (fun x => if x.id = told.id then tnew else x)) =
      tripleCount u p a db := by
  unfold tripleCount
  rw [List.filter_map, List.length_map]
  apply congrArg List.length
  apply List.filter_congr
  intro x hx
  by_cases hxid : x.id = told.id
  · have hxeq : x = told := List.inj_on_of_nodup_map hI hx hmem hxid
    subst hxeq
    simp [Function.comp, hxid, hq]
  · simp [Function.comp, hxid]

/-- The row written by `UpdateToken` matches exactly the triples its
original matched. -/
theorem matchesTriple_UpdateToken (now : Int) (told : Token)
    (atk : String) (ate : Option Int) (rt : Option String)
    (rte : Option Int) (db : List Token) (u p : String)
    (a : Option String) :
    matchesTriple u p a (UpdateToken now told atk ate rt rte db).2 =
      matchesTriple u p a told := by
  simp [UpdateToken, matchesTriple]

/-- `UpdateToken` leaves the stored primary keys unchanged. -/
theorem ids_UpdateToken (now : Int) (told : Token) (atk : String)
    (ate : Option Int) (rt : Option String) (rte : Option Int)
    (db : List Token) :
    ((UpdateToken now told atk ate rt rte db).1).map Token.id =
      db.map Token.id := by
  unfold UpdateToken
  rw [List.map_map]
  apply List.map_congr_left
  intro x hx
  by_cases hxid : x.id = told.id <;> simp [Function.comp, hxid]

/-- `UpdateToken` writes back by primary key. -/
theorem UpdateToken_fst (now : Int) (told : Token) (atk : String)
    (ate : Option Int) (rt : Option String) (rte : Option Int)
    (db : List Token) :
    (UpdateToken now told atk ate rt rte db).1 =
      db.map (fun x => if x.id = told.id then
        (UpdateToken now told atk ate rt rte db).2 else x) := rfl

/-- One `CreateOrUpdateGitHubToken` call on a store satisfying both
uniqueness invariants: the invariants are preserved, the targeted
(user, GITHUB, username) triple ends with exactly one row, every other
triple's count is untouched, every row matching the target carries the
just-written material, and the stored primary keys either stay unchanged
(update) or gain exactly the fresh id (create). -/
theorem github_upsert_step (now : Int) (nid userID uname atk : String)
    (ate : Option Int) (rt : Option String) (rte : Option Int)
    (db : List Token) (hT : uniqueTriples db) (hI : uniqueIDs db)
    (hfresh : nid ∉ db.map Token.id) :
    uniqueTriples
      (CreateOrUpdateGitHubToken now nid userID uname atk ate rt rte db).1 ∧
    uniqueIDs
      (CreateOrUpdateGitHubToken now nid userID uname atk ate rt rte db).1 ∧
    tripleCount userID "GITHUB" (some uname)
      (CreateOrUpdateGitHubToken now nid userID uname atk ate rt rte db).1
      = 1 ∧
    (∀ u2 p2 a2, a2 ≠ some uname →
      tripleCount u2 p2 a2
        (CreateOrUpdateGitHubToken now nid userID uname atk ate rt rte
          db).1 = tripleCount u2 p2 a2 db) ∧
    (∀ x ∈ (CreateOrUpdateGitHubToken now nid userID uname atk ate rt rte
        db).1,
      matchesTriple userID "GITHUB" (some uname) x = true →
      x.accessToken = atk ∧ x.refreshToken = rt) ∧
    ((CreateOrUpdateGitHubToken now nid userID uname atk ate rt rte
        db).1.map Token.id = db.map Token.id ∨
      (CreateOrUpdateGitHubToken now nid userID uname atk ate rt rte
        db).1.map Token.id = db.map Token.id ++ [nid]) := by
  cases hf : db.find? (matchesTriple userID "GITHUB" (some uname)) with
  | some told =>
      have hcg : CreateOrUpdateGitHubToken now nid userID uname atk ate rt
          rte db = ((UpdateToken now told atk ate rt rte db).1,
            .ok (UpdateToken now told atk ate rt rte db).2) := by
        unfold CreateOrUpdateGitHubToken firstGitHubToken
          CreateOrUpdateGitHubTokenCore
        rw [hf]
      have htmem : told ∈ db := List.mem_of_find?_eq_some hf
      have htmatch : matchesTriple userID "GITHUB" (some uname) told =
          true := List.find?_some hf
      have hcount : ∀ u2 p2 a2, tripleCount u2 p2 a2
          (UpdateToken now told atk ate rt rte db).1 =
            tripleCount u2 p2 a2 db := by
        intro u2 p2 a2
        rw [UpdateToken_fst]
        exact tripleCount_replace db told _ hI htmem u2 p2 a2
          (matchesTriple_UpdateToken now told atk ate rt rte db u2 p2 a2)
      have hone : tripleCount userID "GITHUB" (some uname) db = 1 := by
        have hlow : 0 < tripleCount userID "GITHUB" (some uname) db := by
          have : told ∈ db.filter
              (matchesTriple userID "GITHUB" (some uname)) :=
            List.mem_filter.mpr ⟨htmem, htmatch⟩
          exact List.length_pos.mpr (List.ne_nil_of_mem this)
        exact Nat.le_antisymm (hT userID "GITHUB" (some uname)) hlow
      rw [hcg]
      refine ⟨?_, ?_, ?_, ?_, ?_, ?_⟩
      · intro u2 p2 a2
        rw [hcount]
        exact hT u2 p2 a2
      · unfold uniqueIDs
        rw [ids_UpdateToken]
        exact hI
      · rw [hcount]
        exact hone
      · intro u2 p2 a2 _
        exact hcount u2 p2 a2
      · intro x hx hmatch
        rw [UpdateToken_fst] at hx
        obtain ⟨y, hy, hxy⟩ := List.mem_map.mp hx
        by_cases hyid : y.id = told.id
        · rw [if_pos hyid] at hxy
          rw [← hxy]
          constructor <;> simp [UpdateToken]
        · rw [if_neg hyid] at hxy
          subst hxy
          have hxf : y ∈ db.filter
              (matchesTriple userID "GITHUB" (some uname)) :=
            List.mem_filter.mpr ⟨hy, hmatch⟩
          have htf : told ∈ db.filter
              (matchesTriple userID "GITHUB" (some uname)) :=
            List.mem_filter.mpr ⟨htmem, htmatch⟩
          have : y = told :=
            list_len_le_one_eq (hT userID "GITHUB" (some uname)) hxf htf
          exact absurd (congrArg Token.id this) hyid
      · exact Or.inl (ids_UpdateToken now told atk ate rt rte db)
  | none =>
      have hcg : CreateOrUpdateGitHubToken now nid userID uname atk ate rt
          rte db = ((CreateTokenWithAccountIdentifier now nid userID
            "GITHUB" (some uname) atk ate rt rte db).1,
            .ok (CreateTokenWithAccountIdentifier now nid userID "GITHUB"
              (some uname) atk ate rt rte db).2) := by
        unfold CreateOrUpdateGitHubToken firstGitHubToken
          CreateOrUpdateGitHubTokenCore
        rw [hf]
      have h0 : tripleCount userID "GITHUB" (some uname) db = 0 :=
        (find?_triple_none_iff userID "GITHUB" (some uname) db).mp hf
      have hfst : (CreateTokenWithAccountIdentifier now nid userID "GITHUB"
          (some uname) atk ate rt rte db).1 = db ++
            [(CreateTokenWithAccountIdentifier now nid userID "GITHUB"
              (some uname) atk ate rt rte db).2] := rfl
      have hrowmatch : matchesTriple userID "GITHUB" (some uname)
          (CreateTokenWithAccountIdentifier now nid userID "GITHUB"
            (some uname) atk ate rt rte db).2 = true := by
        simp [CreateTokenWithAccountIdentifier, matchesTriple]
      have hrowtriple : ∀ u2 p2 a2, matchesTriple u2 p2 a2
          (CreateTokenWithAccountIdentifier now nid userID "GITHUB"
            (some uname) atk ate rt rte db).2 = true →
          u2 = userID ∧ p2 = "GITHUB" ∧ a2 = some uname := by
        intro u2 p2 a2 h
        simp [CreateTokenWithAccountIdentifier, matchesTriple] at h
        obtain ⟨⟨h1, h2⟩, h3⟩ := h
        exact ⟨h1.symm, h2.symm, h3.symm⟩
      have hrowid : (CreateTokenWithAccountIdentifier now nid userID
          "GITHUB" (some uname) atk ate rt rte db).2.id = nid := rfl
      rw [hcg]
      refine ⟨?_, ?_, ?_, ?_, ?_, ?_⟩
      · intro u2 p2 a2
        rw [hfst, tripleCount_append]
        by_cases hm : matchesTriple u2 p2 a2
            (CreateTokenWithAccountIdentifier now nid userID "GITHUB"
              (some uname) atk ate rt rte db).2 = true
        · obtain ⟨hu, hp, ha⟩ := hrowtriple u2 p2 a2 hm
          subst hu; subst hp; subst ha
          rw [h0, if_pos hm]
        · rw [if_neg hm]
          simpa using hT u2 p2 a2
      · unfold uniqueIDs
        rw [hfst, List.map_append]
        rw [List.nodup_append]
        refine ⟨hI, List.nodup_singleton _, ?_⟩
        intro a ha hb
        rw [List.map_singleton, List.mem_singleton] at hb
        rw [hrowid] at hb
        exact hfresh (hb ▸ ha)
      · rw [hfst, tripleCount_append, h0, if_pos hrowmatch]
      · intro u2 p2 a2 hne2
        rw [hfst, tripleCount_append]
        have hm : matchesTriple u2 p2 a2
            (CreateTokenWithAccountIdentifier now nid userID "GITHUB"
              (some uname) atk ate rt rte db).2 ≠ true := by
          intro hm
          exact hne2 (hrowtriple u2 p2 a2 hm).2.2
        rw [if_neg hm, Nat.add_zero]
      · intro x hx hmatch
        rw [hfst] at hx
        rcases List.mem_append.mp hx with hxdb | hxrow
        · have hxf : x ∈ db.filter
              (matchesTriple userID "GITHUB" (some uname)) :=
            List.mem_filter.mpr ⟨hxdb, hmatch⟩
          have : db.filter (matchesTriple userID "GITHUB" (some uname))
              = [] := List.length_eq_zero.mp h0
          rw [this] at hxf
          cases hxf
        · rw [List.mem_singleton] at hxrow
          subst hxrow
          constructor <;> simp [CreateTokenWithAccountIdentifier]
      · refine Or.inr ?_
        rw [hfst, List.map_append, List.map_singleton, hrowid]

/-- `UpsertToken` (the primary-provider upsert, which looks up by
(user, platform) only) also preserves the triple-uniqueness invariant. -/
theorem upsert_token_preserves (now : Int) (nid userID platform atk : String)
    (ate : Option Int) (rt : Option String) (rte : Option Int)
    (db : List Token) (hT : uniqueTriples db) (hI : uniqueIDs db) :
    uniqueTriples (UpsertToken now nid userID platform atk ate rt rte
      db).1 := by
  cases hf : db.find?
      (fun t => t.userID = userID && t.platform = platform) with
  | some told =>
      have hcg : UpsertToken now nid userID platform atk ate rt rte db =
          ((UpdateToken now told atk ate rt rte db).1,
            .ok (UpdateToken now told atk ate rt rte db).2) := by
        unfold UpsertToken firstTokenByUserPlatform UpsertTokenCore
        rw [hf]
      rw [hcg]
      intro u2 p2 a2
      rw [UpdateToken_fst, tripleCount_replace db told _ hI
        (List.mem_of_find?_eq_some hf) u2 p2 a2
        (matchesTriple_UpdateToken now told atk ate rt rte db u2 p2 a2)]
      exact hT u2 p2 a2
  | none =>
      have hcg : UpsertToken now nid userID platform atk ate rt rte db =
          ((CreateToken now nid userID platform atk ate rt rte db).1,
            .ok (CreateToken now nid userID platform atk ate rt rte
              db).2) := by
        unfold UpsertToken firstTokenByUserPlatform UpsertTokenCore
        rw [hf]
      rw [hcg]
      intro u2 p2 a2
      have hfst : (CreateToken now nid userID platform atk ate rt rte
          db).1 = db ++ [(CreateToken now nid userID platform atk ate rt
            rte db).2] := rfl
      rw [hfst, tripleCount_append]
      by_cases hm : matchesTriple u2 p2 a2
          (CreateToken now nid userID platform atk ate rt rte db).2 = true
      · have hdecomp : u2 = userID ∧ p2 = platform ∧ a2 = none := by
          simp [CreateToken, CreateTokenWithAccountIdentifier,
            matchesTriple] at hm
          obtain ⟨⟨h1, h2⟩, h3⟩ := hm
          exact ⟨h1.symm, h2.symm, h3.symm⟩
        obtain ⟨hu, hp, ha⟩ := hdecomp
        subst hu; subst hp; subst ha
        have h0 : tripleCount u2 p2 none db = 0 := by
          rw [← find?_triple_none_iff, List.find?_eq_none]
          intro x hx hmx
          have hpair := List.find?_eq_none.mp hf x hx
          simp [matchesTriple] at hmx
          simp [hmx.1.1, hmx.1.2] at hpair
        rw [h0, if_pos hm]
      · rw [if_neg hm, Nat.add_zero]
        exact hT u2 p2 a2

/-- C2: on a store satisfying the (user, provider, account) uniqueness
invariant, every upsert preserves the invariant (both the GitHub
account-scoped upsert and the primary-provider upsert); upserting the same
(user, GITHUB, account) twice leaves exactly one row for that triple and
it carries the latest access/refresh material; and upserting two different
account identifiers under the same user yields one independent row for
each. -/
theorem c2_triple_uniqueness (db : List Token) (now1 now2 : Int)
    (id1 id2 userID platform uname uname2 at1 at2 : String)
    (ate1 ate2 : Option Int) (rt1 rt2 : Option String)
    (rte1 rte2 : Option Int)
    (hT : uniqueTriples db) (hI : uniqueIDs db)
    (hfr1 : id1 ∉ db.map Token.id) (hfr2 : id2 ∉ db.map Token.id)
    (hid : id1 ≠ id2) (hne : uname ≠ uname2) :
    uniqueTriples
      (CreateOrUpdateGitHubToken now1 id1 userID uname at1 ate1 rt1 rte1
        db).1 ∧
    uniqueTriples
      (UpsertToken now1 id1 userID platform at1 ate1 rt1 rte1 db).1 ∧
    (tripleCount userID "GITHUB" (some uname)
        (CreateOrUpdateGitHubToken now2 id2 userID uname at2 ate2 rt2 rte2
          (CreateOrUpdateGitHubToken now1 id1 userID uname at1 ate1 rt1
            rte1 db).1).1 = 1 ∧
      ∀ x ∈ (CreateOrUpdateGitHubToken now2 id2 userID uname at2 ate2 rt2
          rte2 (CreateOrUpdateGitHubToken now1 id1 userID uname at1 ate1
            rt1 rte1 db).1).1,
        matchesTriple userID "GITHUB" (some uname) x = true →
        x.accessToken = at2 ∧ x.refreshToken = rt2) ∧
    (tripleCount userID "GITHUB" (some uname)
        (CreateOrUpdateGitHubToken now2 id2 userID uname2 at2 ate2 rt2
          rte2 (CreateOrUpdateGitHubToken now1 id1 userID uname at1 ate1
            rt1 rte1 db).1).1 = 1 ∧
      tripleCount userID "GITHUB" (some uname2)
        (CreateOrUpdateGitHubToken now2 id2 userID uname2 at2 ate2 rt2
          rte2 (CreateOrUpdateGitHubToken now1 id1 userID uname at1 ate1
            rt1 rte1 db).1).1 = 1) := by
  obtain ⟨s1T, s1I, s1cnt, s1other, s1mat, s1ids⟩ :=
    github_upsert_step now1 id1 userID uname at1 ate1 rt1 rte1 db hT hI
      hfr1
  have hfr2' : id2 ∉ ((CreateOrUpdateGitHubToken now1 id1 userID uname at1
      ate1 rt1 rte1 db).1).map Token.id := by
    rcases s1ids with h | h
    · rw [h]; exact hfr2
    · rw [h]
      intro hmem
      rcases List.mem_append.mp hmem with h1 | h1
      · exact hfr2 h1
      · rw [List.mem_singleton] at h1
        exact hid h1.symm
  refine ⟨s1T,
    upsert_token_preserves now1 id1 userID platform at1 ate1 rt1 rte1 db
      hT hI, ?_, ?_⟩
  · obtain ⟨s2T, s2I, s2cnt, s2other, s2mat, s2ids⟩ :=
      github_upsert_step now2 id2 userID uname at2 ate2 rt2 rte2 _ s1T s1I
        hfr2'
    exact ⟨s2cnt, s2mat⟩
  · obtain ⟨s2T, s2I, s2cnt, s2other, s2mat, s2ids⟩ :=
      github_upsert_step now2 id2 userID uname2 at2 ate2 rt2 rte2 _ s1T
        s1I hfr2'
    constructor
    · rw [s2other userID "GITHUB" (some uname)
        (fun h => hne (Option.some.inj h))]
      exact s1cnt
    · exact s2cnt

/-- C2 witness: linking "alice" twice and then "bob" from an empty store. -/
theorem c2_witness :
    uniqueTriples [] ∧ uniqueIDs [] ∧
    ("g1" ∉ ([] : List Token).map Token.id) ∧
    ("g2" ∉ ([] : List Token).map Token.id) ∧
    ("g1" ≠ "g2") ∧ ("alice" ≠ "bob") ∧
    (uniqueTriples
      (CreateOrUpdateGitHubToken 1 "g1" "u1" "alice" "a1" none none none
        []).1 ∧
    uniqueTriples
      (UpsertToken 1 "g1" "u1" "GOOGLE" "a1" none none none []).1 ∧
    (tripleCount "u1" "GITHUB" (some "alice")
        (CreateOrUpdateGitHubToken 2 "g2" "u1" "alice" "a2" none none none
          (CreateOrUpdateGitHubToken 1 "g1" "u1" "alice" "a1" none none
            none []).1).1 = 1 ∧
      ∀ x ∈ (CreateOrUpdateGitHubToken 2 "g2" "u1" "alice" "a2" none none
          none (CreateOrUpdateGitHubToken 1 "g1" "u1" "alice" "a1" none
            none none []).1).1,
        matchesTriple "u1" "GITHUB" (some "alice") x = true →
        x.accessToken = "a2" ∧ x.refreshToken = none) ∧
    (tripleCount "u1" "GITHUB" (some "alice")
        (CreateOrUpdateGitHubToken 2 "g2" "u1" "bob" "a2" none none none
          (CreateOrUpdateGitHubToken 1 "g1" "u1" "alice" "a1" none none
            none []).1).1 = 1 ∧
      tripleCount "u1" "GITHUB" (some "bob")
        (CreateOrUpdateGitHubToken 2 "g2" "u1" "bob" "a2" none none none
          (CreateOrUpdateGitHubToken 1 "g1" "u1" "alice" "a1" none none
            none []).1).1 = 1)) :=
  ⟨fun _ _ _ => by simp [tripleCount], by simp [uniqueIDs], by simp,
    by simp, by decide, by decide,
    c2_triple_uniqueness [] 1 2 "g1" "g2" "u1" "GOOGLE" "alice" "bob" "a1"
      "a2" none none none none none none (fun _ _ _ => by simp [tripleCount])
      (by simp [uniqueIDs]) (by simp) (by simp) (by decide) (by decide)⟩
